import Mathlib

/-!
Shallow embedding of the metrics-aggregation core of the agency dashboard
(`src/api_client.py`), together with theorems settling the specification
claims about it.

Modelling conventions:
* Python floats are modelled as exact rationals (`ℚ`); Python ints as `ℤ`/`ℕ`.
* Python dicts keyed by strings are modelled as insertion-ordered association
  lists (`List (String × _)`), with dict-comprehension "later wins" semantics
  modelled by looking up in the reversed list.
* HTTP responses are modelled as inductive values (`exn` for a transport
  exception, otherwise a status code plus the parsed body).
* Fallible Python functions that return a dict which may or may not carry an
  `error` key are modelled with `Except String _` or an `Option String` field.
-/

namespace AgencyDash

/-- Round a rational to the nearest integer, ties to even: the rounding mode of
Python's builtin `round` (used throughout `api_client.py` as `round(x, n)`). -/
def roundHalfEven (q : ℚ) : ℤ :=
  let f : ℤ := ⌊q⌋
  let r : ℚ := q - (f : ℚ)
  if r < 1/2 then f
  else if (1:ℚ)/2 < r then f + 1
  else if f % 2 = 0 then f else f + 1

/-- `round(x, d)` from Python: round to `d` decimal places, ties to even. -/
def roundTo (d : ℕ) (q : ℚ) : ℚ :=
  (roundHalfEven (q * (10:ℚ)^d) : ℚ) / (10:ℚ)^d

/-- Modelled from the spec: `utils.pct` (§4.6); `utils.py` is not under `src/`.
"returns `round(numerator/denominator*100, 1)` when denominator > 0, else 0". -/
def pct (n d : ℚ) : ℚ :=
  if 0 < d then roundTo 1 (n / d * 100) else 0

/-- Modelled from the spec: `utils.EXCLUDED_STAGE_CANON` (§3), the distinguished
"database reactivation" canonical bucket; `utils.py` is not under `src/`.
Only its identity (a fixed canonical value distinct from every named stage and
from "unknown") matters to the aggregation code. -/
def EXCLUDED_STAGE_CANON : String := "database_reactivation"

/-! ## Funnel aggregation (`get_center_stats_base`, src/api_client.py lines 83-161)

An opportunity after stage resolution and canonicalization (the list built by
the comprehension at lines 84-92): the record's canonical stage and the value
of the configured date field (`None` when the field is absent or empty;
timestamps are modelled as integers, preserving only their ordering). -/

structure Opp where
  stageCanonical : String
  dateField : Option Int
deriving DecidableEq, Repr

/-- Date filter (line 91): keep records whose date field is present and whose
timestamp lies in the closed window `[s, e]`. -/
def dateFiltered (s e : Int) (l : List Opp) : List Opp :=
  l.filter (fun o =>
    match o.dateField with
    | none => false
    | some d => decide (s ≤ d) && decide (d ≤ e))

/-- Line 98: drop Database Reactivation records before stage counting. -/
def oppFiltered (s e : Int) (l : List Opp) : List Opp :=
  (dateFiltered s e l).filter (fun o => !(o.stageCanonical == EXCLUDED_STAGE_CANON))

/-- Line 95: total = all date-filtered opportunities excluding Database
Reactivation. -/
def totalRDVPlanifies (s e : Int) (l : List Opp) : ℕ :=
  (dateFiltered s e l).countP (fun o => !(o.stageCanonical == EXCLUDED_STAGE_CANON))

/-- The named per-stage detail counters (lines 101-118: the `if/elif` chain
tallies each record into the single bucket whose name its canonical stage
equals, so each counter is a count of equality matches). -/
structure Details where
  annule : ℕ
  confirme : ℕ
  pasVenu : ℕ
  present : ℕ
  concretise : ℕ
  nonConfirme : ℕ
  nonQualifie : ℕ
  sansReponse : ℕ
deriving DecidableEq, Repr

def countStage (l : List Opp) (s : String) : ℕ :=
  l.countP (fun o => o.stageCanonical == s)

def detailsOf (l : List Opp) : Details :=
  { annule := countStage l "annule"
    confirme := countStage l "confirme"
    pasVenu := countStage l "pas_venu"
    present := countStage l "present"
    concretise := countStage l "concretise"
    nonConfirme := countStage l "non_confirme"
    nonQualifie := countStage l "non_qualifie"
    sansReponse := countStage l "sans_reponse" }

/-- The `metrics` dict built at lines 130-155 (the `pct_str` display strings,
pure formatting of the same numbers, are omitted). -/
structure Metrics where
  totalRDVPlanifies : ℕ
  rdvConfirmes : ℕ
  showUp : ℕ
  confirmationRateNum : ℚ
  cancellationRateNum : ℚ
  noShowRateNum : ℚ
  presenceRateNum : ℚ
  conversionRateNum : ℚ
  details : Details
deriving DecidableEq, Repr

def metricsOf (s e : Int) (l : List Opp) : Metrics :=
  let total := totalRDVPlanifies s e l
  let filtered := oppFiltered s e l
  let d := detailsOf filtered
  let confirmes := d.confirme + d.pasVenu + d.present + d.concretise
  let show_up := d.present + d.concretise
  { totalRDVPlanifies := total
    rdvConfirmes := confirmes
    showUp := show_up
    confirmationRateNum := pct confirmes total
    cancellationRateNum := pct d.annule total
    noShowRateNum := pct d.pasVenu confirmes
    presenceRateNum := pct show_up confirmes
    conversionRateNum := pct d.concretise show_up
    details := d }

/-- One `stageStats[k] = stageStats.get(k, 0) + 1` update on an
insertion-ordered dict. -/
def bump (l : List (String × ℕ)) (k : String) : List (String × ℕ) :=
  match l with
  | [] => [(k, 1)]
  | (a, n) :: t => if a = k then (a, n + 1) :: t else (a, n) :: bump t k

/-- Line 160: `o['stageCanonical'] or 'unknown'` (an empty canonical stage is
falsy and keys as "unknown"). -/
def stageKey (o : Opp) : String :=
  if o.stageCanonical == "" then "unknown" else o.stageCanonical

/-- Lines 158-161: stage stats over the Database-Reactivation-free records. -/
def stageStatsOf (s e : Int) (l : List Opp) : List (String × ℕ) :=
  (oppFiltered s e l).foldl (fun acc o => bump acc (stageKey o)) []

/-! ## Pagination (`fetch_all_opportunities`, src/api_client.py lines 10-44)

A raw CRM opportunity as it matters to this code: its pipeline stage id
(`""` when absent, matching `opp.get('pipelineStageId', '')`) and its two
timestamp fields (`none` when absent or empty). -/

structure RawOpp where
  pipelineStageId : String
  updatedAt : Option Int
  createdAt : Option Int
deriving DecidableEq, Repr

/-- The server's response to one page request: a transport exception, or a
status code, the `opportunities` array, and whether `meta.nextPageUrl` is
truthy (the cursor values themselves only select the next page, which the
response list already encodes positionally). -/
inductive PageResp where
  | exn : PageResp
  | page (status : ℕ) (opportunities : List RawOpp) (hasNext : Bool) : PageResp
deriving DecidableEq, Repr

/-- The `while has_more` loop, driven by the successive server responses:
break with the items so far on an exception or a non-200 status; otherwise
extend with this page's items and continue exactly when `nextPageUrl` is
truthy. -/
def fetch_all_opportunities : List PageResp → List RawOpp
  | [] => []
  | .exn :: _ => []
  | .page status items hasNext :: rest =>
      if status = 200 then
        items ++ (if hasNext then fetch_all_opportunities rest else [])
      else []

/-! ## Zero-safe rate helpers

Each helper is the exact conditional expression appearing at the cited line of
`src/api_client.py`; the larger embeddings below use them verbatim. -/

/-- Line 426: `cpr = spend / leads if leads > 0 else 0.0`. -/
def cprOf (spend : ℚ) (leads : ℤ) : ℚ :=
  if 0 < leads then spend / (leads : ℚ) else 0

/-- Line 429: `hook_rate = (video_30_sec_watched / impressions * 100) if impressions > 0 else 0`. -/
def hookRateOf (video impressions : ℤ) : ℚ :=
  if 0 < impressions then (video : ℚ) / (impressions : ℚ) * 100 else 0

/-- Line 432: `conversion_rate = (leads / inline_link_clicks * 100) if inline_link_clicks > 0 else 0`. -/
def convRateOf (leads clicks : ℤ) : ℚ :=
  if 0 < clicks then (leads : ℚ) / (clicks : ℚ) * 100 else 0

/-- Line 573: `cpa = round(spend / concretise, 2) if concretise > 0 else 0`. -/
def cpaOf (spend : ℚ) (concretise : ℤ) : ℚ :=
  if 0 < concretise then roundTo 2 (spend / (concretise : ℚ)) else 0

/-- Line 574: `cpl = round(spend / meta_leads, 2) if meta_leads > 0 else 0`. -/
def cplOf (spend : ℚ) (meta_leads : ℤ) : ℚ :=
  if 0 < meta_leads then roundTo 2 (spend / (meta_leads : ℚ)) else 0

/-- Line 575: `lead_to_sale_rate = round((concretise / meta_leads * 100), 2) if meta_leads > 0 else 0`. -/
def leadToSaleOf (concretise meta_leads : ℤ) : ℚ :=
  if 0 < meta_leads then roundTo 2 ((concretise : ℚ) / (meta_leads : ℚ) * 100) else 0

/-- Line 576: `lead_to_appointment_rate = round((total_created / meta_leads * 100), 2) if meta_leads > 0 else 0`. -/
def leadToAppointmentOf (total_created meta_leads : ℤ) : ℚ :=
  if 0 < meta_leads then roundTo 2 ((total_created : ℚ) / (meta_leads : ℚ) * 100) else 0

/-- Lines 691-693: `weighted_x = (total_x / total_spend) if total_spend > 0 else 0`. -/
def weightedAvgOf (weightedSum totalSpend : ℚ) : ℚ :=
  if 0 < totalSpend then weightedSum / totalSpend else 0

/-- Lines 711-712 and 716-720: `round(n / d * [100,] 2) if d > 0 else 0`
(the `avg_cpa`/`avg_cpl` uses pass `scale = 1`, the overall rates `scale = 100`). -/
def safeRatio2 (scale n d : ℚ) : ℚ :=
  if 0 < d then roundTo 2 (n / d * scale) else 0

/-- Lines 697-699: `round(sum / n, 2) if n else 0`, the plain arithmetic mean
over valid centers. -/
def meanRateOf (sum : ℚ) (n : ℕ) : ℚ :=
  if n ≠ 0 then roundTo 2 (sum / (n : ℚ)) else 0

/-! ## Ads-metrics extraction (`fetch_meta_metrics`, src/api_client.py lines 364-460) -/

/-- The first element of the insights `data` array, restricted to the consumed
fields. `conversions`/`actions` entries are (action_type, value) pairs;
`video_30_sec_watched_actions` is `none` when the key is absent. Absent scalar
fields are the dict-`get` defaults, so an empty `data` array is the record with
all fields at their defaults. -/
structure Insights where
  spend : ℚ := 0
  cpm : ℚ := 0
  ctr : ℚ := 0
  impressions : ℤ := 0
  inline_link_clicks : ℤ := 0
  conversions : List (String × ℤ) := []
  actions : List (String × ℤ) := []
  video_30_sec_watched_actions : Option (List ℤ) := none
deriving DecidableEq, Repr

/-- The ads insights response: transport exception, or status code plus the
parsed first insights record. -/
inductive MetaResp where
  | exn (msg : String) : MetaResp
  | resp (status : ℕ) (insights : Insights) : MetaResp
deriving DecidableEq, Repr

/-- The metrics dict returned by `fetch_meta_metrics`; `error` models the
optional `"error"` key. -/
structure AdsMetrics where
  leads : ℤ := 0
  spend : ℚ := 0
  cpm : ℚ := 0
  ctr : ℚ := 0
  cpr : ℚ := 0
  impressions : ℤ := 0
  inline_link_clicks : ℤ := 0
  video_30_sec_watched : ℤ := 0
  hook_rate : ℚ := 0
  conversion_rate : ℚ := 0
  error : Option String := none
deriving DecidableEq, Repr

/-- Lines 407-409: leads = sum of `value` over `conversions` entries whose
`action_type` is `"schedule_total"`. -/
def leadsOf (ins : Insights) : ℤ :=
  (ins.conversions.filter (fun c => c.1 == "schedule_total")).foldl (fun a c => a + c.2) 0

/-- Lines 404 and 411-415: use `inline_link_clicks` directly; when it is zero,
add the `value` of every `actions` entry whose `action_type` is `"link_click"`. -/
def linkClicksOf (ins : Insights) : ℤ :=
  if ins.inline_link_clicks = 0 then
    (ins.actions.filter (fun a => a.1 == "link_click")).foldl (fun a c => a + c.2) 0
  else ins.inline_link_clicks

/-- Lines 418-423: sum `video_30_sec_watched_actions` values when the key is
present. -/
def video30Of (ins : Insights) : ℤ :=
  match ins.video_30_sec_watched_actions with
  | none => 0
  | some vs => vs.foldl (· + ·) 0

def fetch_meta_metrics : MetaResp → AdsMetrics
  | .exn msg => { error := some msg }
  | .resp status ins =>
      if status ≠ 200 then
        { error := some ("HTTP " ++ toString status) }
      else
        let leads := leadsOf ins
        let inline_link_clicks := linkClicksOf ins
        let video_30_sec_watched := video30Of ins
        { leads := leads
          spend := ins.spend
          cpm := ins.cpm
          ctr := ins.ctr
          cpr := cprOf ins.spend leads
          impressions := ins.impressions
          inline_link_clicks := inline_link_clicks
          video_30_sec_watched := video_30_sec_watched
          hook_rate := hookRateOf video_30_sec_watched ins.impressions
          conversion_rate := convRateOf leads inline_link_clicks }

/-! ## Performance join (`fetch_combined_performance_data`, src/api_client.py lines 537-607) -/

/-- The slice of a successful funnel result consumed by the join (lines
566-571): `details.concretise`, `totalRDVPlanifies` and the four numeric
rates, each read with a 0 default. -/
structure CreatedMetrics where
  concretise : ℤ := 0
  totalRDVPlanifies : ℤ := 0
  confirmationRateNum : ℚ := 0
  conversionRateNum : ℚ := 0
  cancellationRateNum : ℚ := 0
  noShowRateNum : ℚ := 0
deriving DecidableEq, Repr

/-- One element of the CRM-side (`createdAt`-filtered) result list: `metrics`
is `none` when the record carries no `metrics` key (the error shape), `error`
models the optional `"error"` key. -/
structure CreatedCenter where
  centerName : String
  city : String
  metrics : Option CreatedMetrics := none
  error : Option String := none
deriving DecidableEq, Repr

/-- One element of the ads-side result list (`get_center_meta_stats` always
returns a `metrics` dict). -/
structure MetaCenter where
  centerName : String
  city : String
  metrics : AdsMetrics
deriving DecidableEq, Repr

/-- Python `s.strip().lower()`: drop whitespace from both ends, then
lower-case (the center names are ASCII, where `Char.toLower` agrees with
Python's case mapping). Written over the character list so that it evaluates
inside the kernel. -/
def stripLower (s : String) : String :=
  let dropWs (l : List Char) : List Char := l.dropWhile Char.isWhitespace
  String.mk (((dropWs ((dropWs s.toList).reverse)).reverse).map Char.toLower)

/-- Line 543: `{m['centerName'].strip().lower(): m for m in meta_data}` followed
by `.get(key)`: dict-comprehension lookup where a later record with the same
normalized name wins. -/
def metaLookup (meta_data : List MetaCenter) (key : String) : Option MetaCenter :=
  meta_data.reverse.find? (fun m => stripLower m.centerName == key)

/-- The combined per-center record appended at lines 578-605. -/
structure Combined where
  centerName : String
  city : String
  meta_leads : ℤ
  spend : ℚ
  cpm : ℚ
  ctr : ℚ
  cpr : ℚ
  impressions : ℤ
  inline_link_clicks : ℤ
  video_30_sec_watched : ℤ
  hook_rate : ℚ
  meta_conversion_rate : ℚ
  total_created : ℤ
  concretise : ℤ
  confirmation_rate : ℚ
  conversion_rate : ℚ
  cancellation_rate : ℚ
  no_show_rate : ℚ
  cpa : ℚ
  cpl : ℚ
  lead_to_sale_rate : ℚ
  lead_to_appointment_rate : ℚ
  has_meta_error : Bool
  has_created_error : Bool
  meta_error : String
  created_error : String

/-- Lines 546-605: the body of the per-created-center loop. A missing ads-side
match leaves `meta_metrics = {}`, i.e. every ads field at its `get` default. -/
def combineCenter (cc : CreatedCenter) (mc : Option MetaCenter) : Combined :=
  let meta_metrics : AdsMetrics := match mc with
    | some m => m.metrics
    | none => {}
  let created_metrics : CreatedMetrics := match cc.metrics with
    | some m => m
    | none => {}
  let spend := meta_metrics.spend
  let meta_leads := meta_metrics.leads
  let concretise := created_metrics.concretise
  let total_created := created_metrics.totalRDVPlanifies
  { centerName := cc.centerName
    city := cc.city
    meta_leads := meta_leads
    spend := spend
    cpm := meta_metrics.cpm
    ctr := meta_metrics.ctr
    cpr := meta_metrics.cpr
    impressions := meta_metrics.impressions
    inline_link_clicks := meta_metrics.inline_link_clicks
    video_30_sec_watched := meta_metrics.video_30_sec_watched
    hook_rate := meta_metrics.hook_rate
    meta_conversion_rate := meta_metrics.conversion_rate
    total_created := total_created
    concretise := concretise
    confirmation_rate := created_metrics.confirmationRateNum
    conversion_rate := created_metrics.conversionRateNum
    cancellation_rate := created_metrics.cancellationRateNum
    no_show_rate := created_metrics.noShowRateNum
    cpa := cpaOf spend concretise
    cpl := cplOf spend meta_leads
    lead_to_sale_rate := leadToSaleOf concretise meta_leads
    lead_to_appointment_rate := leadToAppointmentOf total_created meta_leads
    has_meta_error := meta_metrics.error.isSome
    has_created_error := cc.error.isSome
    meta_error := meta_metrics.error.getD ""
    created_error := cc.error.getD "" }

/-- Lines 543-607 applied to the two already-fetched result lists: one output
record per CRM-side record, joined to the ads side by normalized center name. -/
def fetch_combined_performance_data
    (created_data : List CreatedCenter) (meta_data : List MetaCenter) : List Combined :=
  created_data.map (fun cc => combineCenter cc (metaLookup meta_data (stripLower cc.centerName)))

/-! ## Fleet summary (`get_performance_summary`, src/api_client.py lines 657-726) -/

structure Summary where
  total_centers : ℕ
  total_spend : ℚ
  total_impressions : ℚ
  total_clicks : ℚ
  total_video_30s : ℚ
  total_meta_leads : ℚ
  total_created : ℚ
  total_concretise : ℚ
  avg_cpa : ℚ
  avg_cpl : ℚ
  avg_cpm : ℚ
  avg_ctr : ℚ
  avg_cpr : ℚ
  overall_hook_rate : ℚ
  overall_meta_conversion_rate : ℚ
  overall_lead_to_appointment : ℚ
  overall_lead_to_sale : ℚ
  overall_conversion_rate : ℚ
  overall_confirmation_rate : ℚ
  overall_cancellation_rate : ℚ
  overall_no_show_rate : ℚ

/-- Lines 669-724 on the already-error-filtered `valid_centers` list (in this
typed embedding every field is a number, so `safe_float` is a coercion). -/
def summaryOf (valid_centers : List Combined) : Summary :=
  let total_spend := (valid_centers.map (·.spend)).sum
  let total_meta_leads := (valid_centers.map (fun c => ((c.meta_leads : ℚ)))).sum
  let total_created := (valid_centers.map (fun c => ((c.total_created : ℚ)))).sum
  let total_concretise := (valid_centers.map (fun c => ((c.concretise : ℚ)))).sum
  let total_impressions := (valid_centers.map (fun c => ((c.impressions : ℚ)))).sum
  let total_clicks := (valid_centers.map (fun c => ((c.inline_link_clicks : ℚ)))).sum
  let total_video_30s := (valid_centers.map (fun c => ((c.video_30_sec_watched : ℚ)))).sum
  let total_cpm := ((valid_centers.filter (fun c => 0 < c.spend)).map (fun c => c.cpm * c.spend)).sum
  let total_ctr := ((valid_centers.filter (fun c => 0 < c.spend)).map (fun c => c.ctr * c.spend)).sum
  let total_cpr := ((valid_centers.filter (fun c => 0 < c.spend)).map (fun c => c.cpr * c.spend)).sum
  let n := valid_centers.length
  { total_centers := n
    total_spend := total_spend
    total_impressions := total_impressions
    total_clicks := total_clicks
    total_video_30s := total_video_30s
    total_meta_leads := total_meta_leads
    total_created := total_created
    total_concretise := total_concretise
    avg_cpa := safeRatio2 1 total_spend total_concretise
    avg_cpl := safeRatio2 1 total_spend total_meta_leads
    avg_cpm := roundTo 2 (weightedAvgOf total_cpm total_spend)
    avg_ctr := roundTo 2 (weightedAvgOf total_ctr total_spend)
    avg_cpr := roundTo 2 (weightedAvgOf total_cpr total_spend)
    overall_hook_rate := safeRatio2 100 total_video_30s total_impressions
    overall_meta_conversion_rate := safeRatio2 100 total_meta_leads total_clicks
    overall_lead_to_appointment := safeRatio2 100 total_created total_meta_leads
    overall_lead_to_sale := safeRatio2 100 total_concretise total_meta_leads
    overall_conversion_rate := safeRatio2 100 total_concretise total_created
    overall_confirmation_rate := meanRateOf ((valid_centers.map (·.confirmation_rate)).sum) n
    overall_cancellation_rate := meanRateOf ((valid_centers.map (·.cancellation_rate)).sum) n
    overall_no_show_rate := meanRateOf ((valid_centers.map (·.no_show_rate)).sum) n }

/-- The three shapes `get_performance_summary` can return: the empty dict for
empty input, the collective `{'error': 'No valid data available'}`, or a full
summary. -/
inductive SummaryResult where
  | empty : SummaryResult
  | errorNoValid : SummaryResult
  | ok (s : Summary) : SummaryResult

def get_performance_summary (combined_data : List Combined) : SummaryResult :=
  if combined_data.isEmpty then .empty
  else
    let valid_centers := combined_data.filter
      (fun c => !c.has_meta_error && !c.has_created_error)
    if valid_centers.isEmpty then .errorNoValid
    else .ok (summaryOf valid_centers)

/-! ## Appointments (`fetch_appointments*`, src/api_client.py lines 239-299) -/

/-- A calendar appointment as consumed here: `startTime` and the two status
fields, each `none` when absent (`""` counts as falsy where the code tests
truthiness). -/
structure Appt where
  startTime : Option String := none
  appointmentStatus : Option String := none
  status : Option String := none
deriving DecidableEq, Repr

/-- The calendar endpoint's response. -/
inductive CalResp where
  | exn : CalResp
  | resp (status : ℕ) (appointments : List Appt) : CalResp
deriving DecidableEq, Repr

/-- Lines 239-258: `fetch_appointments_from_calendar` returns the
`appointments` array on success and the empty list on a non-200 status or any
exception. -/
def fetch_appointments_from_calendar : CalResp → List Appt
  | .exn => []
  | .resp status appointments => if status = 200 then appointments else []

/-- Lines 260-261: `iso_string.split('T')[0] if iso_string else 'unknown'`. -/
def get_date_from_iso (iso : Option String) : String :=
  match iso with
  | none => "unknown"
  | some s => if s = "" then "unknown" else (s.splitOn "T").headD ""

/-- Python truthiness chain `a.get('appointmentStatus') or a.get('status') or
'unknown'` followed by `.lower()`. -/
def apptStatusOf (a : Appt) : String :=
  let pick (o : Option String) : Option String :=
    match o with
    | none => none
    | some s => if s = "" then none else some s
  ((pick a.appointmentStatus).orElse (fun _ => pick a.status)).getD "unknown" |>.toLower

/-- The per-day bucket `{'total': n, status₁: n₁, ...}`. -/
structure DayStats where
  total : ℕ
  statuses : List (String × ℕ)
deriving DecidableEq, Repr

/-- Update the per-day dict at one date key: create the day bucket on first
sight, otherwise increment its total and bump the status count. -/
def mergeInto (date status : String) : List (String × DayStats) → List (String × DayStats)
  | [] => [(date, { total := 1, statuses := [(status, 1)] })]
  | (d, st) :: t =>
      if d = date then (d, { total := st.total + 1, statuses := bump st.statuses status }) :: t
      else (d, st) :: mergeInto date status t

/-- One loop iteration of `merge_appointments_by_day` (lines 263-274). -/
def mergeOne (byDay : List (String × DayStats)) (a : Appt) : List (String × DayStats) :=
  mergeInto (get_date_from_iso a.startTime) (apptStatusOf a) byDay

def merge_appointments_by_day (appointments : List Appt) : List (String × DayStats) :=
  appointments.foldl mergeOne []

/-- The static configuration fields `fetch_appointments` reads from a center. -/
structure ApptCenter where
  centerName : String
  city : String
  locationId : String
  calendarId : Option String := none
  calendarId2 : Option String := none
deriving DecidableEq, Repr

/-- The dict returned by `fetch_appointments` (lines 291-299). The `error`
field models the optional `"error"` key of the Python result dict; this code
never writes it. -/
structure ApptResult where
  centerName : String
  city : String
  locationId : String
  calendarId : Option String
  calendarId2 : Option String
  appointmentsByDay : List (String × DayStats)
  totalAppointments : ℕ
  error : Option String
deriving DecidableEq, Repr

/-- Lines 276-299: fetch the primary calendar, the secondary one when
configured, concatenate, bucket by day. `resp1`/`resp2` are the two calendar
endpoint responses. -/
def fetch_appointments (center : ApptCenter) (resp1 resp2 : CalResp) : ApptResult :=
  let appointments1 := fetch_appointments_from_calendar resp1
  let all_appointments :=
    if center.calendarId2.isSome then
      appointments1 ++ fetch_appointments_from_calendar resp2
    else appointments1
  { centerName := center.centerName
    city := center.city
    locationId := center.locationId
    calendarId := center.calendarId
    calendarId2 := center.calendarId2
    appointmentsByDay := merge_appointments_by_day all_appointments
    totalAppointments := all_appointments.length
    error := none }

/-! ## Per-center stats and the batch call
(`get_center_stats_base` lines 46-180, `fetch_centers_data` lines 212-223) -/

/-- Strip the accents occurring in the French stage labels. -/
def deaccentChar (c : Char) : Char :=
  if c = 'é' ∨ c = 'è' ∨ c = 'ê' ∨ c = 'ë' then 'e'
  else if c = 'à' ∨ c = 'â' then 'a'
  else if c = 'î' ∨ c = 'ï' then 'i'
  else if c = 'ô' then 'o'
  else if c = 'û' ∨ c = 'ù' then 'u'
  else if c = 'ç' then 'c'
  else c

/-- Modelled from the spec: `utils.canonical` (§4.1); `utils.py` is not under
`src/`. Case- and diacritic-insensitively matches a stage display name against
a fixed table of French/English label variants; unrecognized input (including
the empty string) maps to "unknown". The table below realizes the canonical
vocabulary of §3 with the label examples of §4.1. -/
def canonical (displayName : String) : String :=
  let t := String.mk (displayName.toList.map (fun c => Char.toLower (deaccentChar c)))
  if t = "annule" then "annule"
  else if t = "confirme" then "confirme"
  else if t = "pas venu" ∨ t = "pas_venu" then "pas_venu"
  else if t = "present" then "present"
  else if t = "concretise" then "concretise"
  else if t = "non confirme" ∨ t = "non_confirme" then "non_confirme"
  else if t = "non qualifie" ∨ t = "non_qualifie" then "non_qualifie"
  else if t = "sans reponse" ∨ t = "sans_reponse" then "sans_reponse"
  else if t = "database reactivation" then EXCLUDED_STAGE_CANON
  else "unknown"

/-- A pipeline as returned by the pipeline-listing endpoint: id, name and the
stage (id, name) pairs. -/
structure Pipeline where
  id : String
  name : String
  stages : List (String × String)
deriving DecidableEq, Repr

/-- Configuration of one center as consumed by `get_center_stats_base`. -/
structure Center where
  centerName : String
  city : String
  pipelineName : String
deriving DecidableEq, Repr

/-- The CRM's behaviour towards one center: the pipeline-listing response
(status and body) and the opportunity pages served for the target pipeline. -/
structure CrmEnv where
  pipelineStatus : ℕ
  pipelines : List Pipeline
  pages : List PageResp
deriving DecidableEq, Repr

/-- Which timestamp field the aggregation filters on (the `date_field`
parameter). -/
inductive DateField where
  | updatedAt
  | createdAt
deriving DecidableEq, Repr

def RawOpp.dateOf (o : RawOpp) : DateField → Option Int
  | .updatedAt => o.updatedAt
  | .createdAt => o.createdAt

/-- Dict lookup `{stage['id']: stage['name']}.get(k, '')` (later duplicate ids
win, as in a dict comprehension). -/
def stageNameOf (stages : List (String × String)) (stageId : String) : String :=
  ((stages.reverse.find? (fun st => st.1 == stageId)).map (·.2)).getD ""

/-- The successful payload of `get_center_stats_base` (lines 163-173; the
echoed filter dates are omitted). -/
structure StatsOk where
  pipelineId : String
  pipelineName : String
  stageStats : List (String × ℕ)
  metrics : Metrics
deriving DecidableEq, Repr

/-- The dict returned by `get_center_stats_base`: center identity plus either
an `error` string or the full stats. -/
structure CenterStats where
  centerName : String
  city : String
  result : Except String StatsOk
deriving Repr

/-- Lines 46-180. The two failure branches (non-200 pipeline listing, pipeline
name not found) return the error shape; otherwise the opportunity pages are
drained, stage names resolved and canonicalized, and the funnel aggregated. -/
def get_center_stats_base (center : Center) (env : CrmEnv) (df : DateField)
    (s e : Int) : CenterStats :=
  if env.pipelineStatus ≠ 200 then
    { centerName := center.centerName
      city := center.city
      result := .error ("Failed to fetch pipelines: " ++ toString env.pipelineStatus) }
  else
    match env.pipelines.find? (fun p => p.name == center.pipelineName) with
    | none =>
        { centerName := center.centerName
          city := center.city
          result := .error "Pipeline not found" }
    | some target_pipeline =>
        let all_opportunities := fetch_all_opportunities env.pages
        let opps : List Opp := all_opportunities.map (fun o =>
          { stageCanonical := canonical (stageNameOf target_pipeline.stages o.pipelineStageId)
            dateField := o.dateOf df })
        { centerName := center.centerName
          city := center.city
          result := .ok
            { pipelineId := target_pipeline.id
              pipelineName := target_pipeline.name
              stageStats := stageStatsOf s e opps
              metrics := metricsOf s e opps } }

/-- Lines 212-223: the batch call runs `get_center_stats` for every selected
center and gathers the results in input order (`asyncio.gather` preserves task
order). Each center is paired with the CRM behaviour it encounters. -/
def fetch_centers_data (centers : List (Center × CrmEnv)) (df : DateField)
    (s e : Int) : List CenterStats :=
  centers.map (fun ce => get_center_stats_base ce.1 ce.2 df s e)

/-- A center's pipeline lookup fails: non-200 pipeline listing, or the
configured pipeline name is absent from the listing. -/
def pipelineFails (ce : Center × CrmEnv) : Prop :=
  ce.2.pipelineStatus ≠ 200 ∨
    ce.2.pipelines.find? (fun p => p.name == ce.1.pipelineName) = none

instance (ce : Center × CrmEnv) : Decidable (pipelineFails ce) := by
  unfold pipelineFails; infer_instance

/-! # Theorems settling the claims -/

/-- C1: every rate formula of the system (the funnel `pct` rates, the ads
cpr/hook-rate/conversion-rate, the joiner cpa/cpl/lead-to-sale/
lead-to-appointment rates, and the fleet-summary weighted averages, overall
ratios and arithmetic means) returns exactly 0 when its denominator is zero.
The formulas are total functions into `ℚ` by construction, so no input makes
them raise, or produce NaN or an infinity. -/
theorem zero_denominator_yields_zero :
    (∀ n : ℚ, pct n 0 = 0) ∧
    (∀ s : ℚ, cprOf s 0 = 0) ∧
    (∀ v : ℤ, hookRateOf v 0 = 0) ∧
    (∀ l : ℤ, convRateOf l 0 = 0) ∧
    (∀ s : ℚ, cpaOf s 0 = 0) ∧
    (∀ s : ℚ, cplOf s 0 = 0) ∧
    (∀ c : ℤ, leadToSaleOf c 0 = 0) ∧
    (∀ t : ℤ, leadToAppointmentOf t 0 = 0) ∧
    (∀ w : ℚ, weightedAvgOf w 0 = 0) ∧
    (∀ sc n : ℚ, safeRatio2 sc n 0 = 0) ∧
    (∀ s : ℚ, meanRateOf s 0 = 0) := by
  refine ⟨?_, ?_, ?_, ?_, ?_, ?_, ?_, ?_, ?_, ?_, ?_⟩ <;> intros <;>
    simp [pct, cprOf, hookRateOf, convRateOf, cpaOf, cplOf, leadToSaleOf,
      leadToAppointmentOf, weightedAvgOf, safeRatio2, meanRateOf]

/-- The concrete ads insights payload of the claimed extraction-fallback
scenario: empty `conversions`, one `actions` entry of type `"lead"` with
value 3. -/
def leadFallbackPayload : Insights :=
  { conversions := [], actions := [("lead", 3)] }

/-- C2 counterexample: on the payload with `conversions=[]` and
`actions=[{"action_type":"lead","value":"3"}]` the code extracts `leads = 0`,
not the claimed 3 — `fetch_meta_metrics` never reads `actions` entries of type
`"lead"`; its zero-fallback over `actions` concerns `link_click` entries and
feeds `inline_link_clicks`, not leads. -/
theorem leads_fallback_counterexample :
    (fetch_meta_metrics (.resp 200 leadFallbackPayload)).leads = 0 ∧
    (fetch_meta_metrics (.resp 200 leadFallbackPayload)).leads ≠ 3 := by
  constructor <;> decide

/-- C2 as amended: leads are extracted solely as the sum of `value` over
`conversions[]` entries with `action_type == "schedule_total"` (the `actions`
list never influences leads, so the claimed payload yields 0); the two-tier
zero-fallback instead applies to link clicks: a nonzero `inline_link_clicks`
is used verbatim, and when it is zero the `actions[]` entries with
`action_type == "link_click"` are summed. -/
theorem leads_no_action_fallback :
    (∀ ins : Insights, (fetch_meta_metrics (.resp 200 ins)).leads = leadsOf ins) ∧
    (∀ (ins : Insights) (acts : List (String × ℤ)),
      (fetch_meta_metrics (.resp 200 { ins with actions := acts })).leads =
        (fetch_meta_metrics (.resp 200 ins)).leads) ∧
    (fetch_meta_metrics (.resp 200 leadFallbackPayload)).leads = 0 ∧
    (∀ ins : Insights, ins.inline_link_clicks ≠ 0 →
      (fetch_meta_metrics (.resp 200 ins)).inline_link_clicks = ins.inline_link_clicks) ∧
    (∀ ins : Insights, ins.inline_link_clicks = 0 →
      (fetch_meta_metrics (.resp 200 ins)).inline_link_clicks =
        ((ins.actions.filter (fun a => a.1 == "link_click")).foldl (fun a c => a + c.2) 0)) := by
  refine ⟨?_, ?_, by decide, ?_, ?_⟩
  · intro ins; simp [fetch_meta_metrics]
  · intro ins acts; simp [fetch_meta_metrics, leadsOf]
  · intro ins h; simp [fetch_meta_metrics, linkClicksOf, h]
  · intro ins h; simp [fetch_meta_metrics, linkClicksOf, h]

/-- Payload with a nonzero direct `inline_link_clicks` and a competing
`link_click` action entry. -/
def directClicksPayload : Insights :=
  { inline_link_clicks := 10, actions := [("link_click", 5)] }

/-- Payload with `inline_link_clicks = 0` and a `link_click` action entry. -/
def fallbackClicksPayload : Insights :=
  { inline_link_clicks := 0, actions := [("link_click", 3)] }

/-- C2 witness: the amended theorem applied at concrete payloads (nonzero
direct clicks are kept verbatim; zero direct clicks fall back to the
`link_click` action sum). -/
theorem leads_no_action_fallback_witness :
    (fetch_meta_metrics (.resp 200 directClicksPayload)).inline_link_clicks = 10 ∧
    (fetch_meta_metrics (.resp 200 fallbackClicksPayload)).inline_link_clicks = 3 := by
  constructor
  · exact leads_no_action_fallback.2.2.2.1 directClicksPayload (by decide)
  · have h := leads_no_action_fallback.2.2.2.2 fallbackClicksPayload (by decide)
    rw [h]; decide

/-- The four within-window opportunities of the end-to-end funnel scenario. -/
def scenarioOpps : List Opp :=
  [⟨"confirme", some 5⟩, ⟨"present", some 5⟩, ⟨"concretise", some 5⟩, ⟨"annule", some 5⟩]

/-- C3: on 4 in-window opportunities with canonical stages confirme, present,
concretise, annule (and no excluded-stage records), the funnel aggregation
returns total 4, confirmes 3 (= confirme + pas_venu + present + concretise),
show-up 2 (= present + concretise), confirmation 75.0, cancellation 25.0,
presence 66.7 and conversion 50.0. -/
theorem funnel_end_to_end_scenario :
    (metricsOf 0 10 scenarioOpps).totalRDVPlanifies = 4 ∧
    (metricsOf 0 10 scenarioOpps).rdvConfirmes = 3 ∧
    (metricsOf 0 10 scenarioOpps).showUp = 2 ∧
    (metricsOf 0 10 scenarioOpps).confirmationRateNum = 75 ∧
    (metricsOf 0 10 scenarioOpps).cancellationRateNum = 25 ∧
    (metricsOf 0 10 scenarioOpps).presenceRateNum = 667 / 10 ∧
    (metricsOf 0 10 scenarioOpps).conversionRateNum = 50 ∧
    (metricsOf 0 10 scenarioOpps).rdvConfirmes =
      (metricsOf 0 10 scenarioOpps).details.confirme +
      (metricsOf 0 10 scenarioOpps).details.pasVenu +
      (metricsOf 0 10 scenarioOpps).details.present +
      (metricsOf 0 10 scenarioOpps).details.concretise ∧
    (metricsOf 0 10 scenarioOpps).showUp =
      (metricsOf 0 10 scenarioOpps).details.present +
      (metricsOf 0 10 scenarioOpps).details.concretise := by
  have hconf : (metricsOf 0 10 scenarioOpps).confirmationRateNum
      = pct ((3:ℕ):ℚ) ((4:ℕ):ℚ) := rfl
  have hcanc : (metricsOf 0 10 scenarioOpps).cancellationRateNum
      = pct ((1:ℕ):ℚ) ((4:ℕ):ℚ) := rfl
  have hpres : (metricsOf 0 10 scenarioOpps).presenceRateNum
      = pct ((2:ℕ):ℚ) ((3:ℕ):ℚ) := rfl
  have hconv : (metricsOf 0 10 scenarioOpps).conversionRateNum
      = pct ((1:ℕ):ℚ) ((2:ℕ):ℚ) := rfl
  refine ⟨by decide, by decide, by decide, ?_, ?_, ?_, ?_, by decide, by decide⟩
  · rw [hconf]; norm_num [pct, roundTo, roundHalfEven]
  · rw [hcanc]; norm_num [pct, roundTo, roundHalfEven]
  · rw [hpres]; norm_num [pct, roundTo, roundHalfEven]
  · rw [hconv]; norm_num [pct, roundTo, roundHalfEven]

/-! ### C4: the exclusion invariant -/

lemma dateFiltered_filter (s e : Int) (p : Opp → Bool) (l : List Opp) :
    dateFiltered s e (l.filter p) = (dateFiltered s e l).filter p := by
  unfold dateFiltered
  rw [List.filter_filter, List.filter_filter]
  exact List.filter_congr (fun x _ => Bool.and_comm _ _)

lemma oppFiltered_filter_excl (s e : Int) (l : List Opp) :
    oppFiltered s e (l.filter (fun o => !(o.stageCanonical == EXCLUDED_STAGE_CANON))) =
      oppFiltered s e l := by
  unfold oppFiltered
  rw [dateFiltered_filter, List.filter_filter]
  exact List.filter_congr (fun x _ => by
    cases h : x.stageCanonical == EXCLUDED_STAGE_CANON <;> simp [h])

lemma totalRDV_filter_excl (s e : Int) (l : List Opp) :
    totalRDVPlanifies s e (l.filter (fun o => !(o.stageCanonical == EXCLUDED_STAGE_CANON))) =
      totalRDVPlanifies s e l := by
  unfold totalRDVPlanifies
  rw [dateFiltered_filter, List.countP_filter]
  exact List.countP_congr (fun x _ => by
    cases h : x.stageCanonical == EXCLUDED_STAGE_CANON <;> simp [h])

lemma lookup_bump_ne (acc : List (String × ℕ)) (k' k : String) (h : (k == k') = false) :
    (bump acc k').lookup k = acc.lookup k := by
  induction acc with
  | nil => simp [bump, List.lookup, h]
  | cons hd t ih =>
      rw [bump]
      by_cases hh : hd.1 = k'
      · simp only [hh, if_pos rfl, List.lookup]
        rw [← hh] at h ⊢
        simp [List.lookup, h]
      · rw [if_neg hh]
        cases hd with
        | mk a n => simp only [List.lookup, ih]

lemma lookup_fold_none (l : List Opp) (k : String) (acc : List (String × ℕ))
    (hacc : acc.lookup k = none) (hl : ∀ o ∈ l, (k == stageKey o) = false) :
    (l.foldl (fun acc o => bump acc (stageKey o)) acc).lookup k = none := by
  induction l generalizing acc with
  | nil => simpa using hacc
  | cons o t ih =>
      simp only [List.foldl_cons]
      apply ih
      · rw [lookup_bump_ne _ _ _ (hl o (List.mem_cons_self o t))]
        exact hacc
      · intro o' ho'
        exact hl o' (List.mem_cons_of_mem _ ho')

lemma stageStats_lookup_excluded (s e : Int) (l : List Opp) :
    (stageStatsOf s e l).lookup EXCLUDED_STAGE_CANON = none := by
  unfold stageStatsOf
  apply lookup_fold_none
  · rfl
  · intro o ho
    have hne : (o.stageCanonical == EXCLUDED_STAGE_CANON) = false := by
      have := List.of_mem_filter ho
      simpa using this
    unfold stageKey
    by_cases he : o.stageCanonical == ""
    · rw [if_pos he]; decide
    · rw [if_neg he]
      have : o.stageCanonical ≠ EXCLUDED_STAGE_CANON := by
        simpa using hne
      simpa using fun h => this h.symm

/-- C4: Database-Reactivation records contribute to nothing. Removing every
record whose canonical stage is the EXCLUDED value changes neither the metrics
(total, named detail counters, derived confirmes/show-up sums, rates) nor the
stage-stats mapping, and the EXCLUDED key is absent from the stage-stats
mapping. -/
theorem excluded_stage_contributes_nothing :
    ∀ (s e : Int) (l : List Opp),
      metricsOf s e (l.filter (fun o => !(o.stageCanonical == EXCLUDED_STAGE_CANON))) =
        metricsOf s e l ∧
      stageStatsOf s e (l.filter (fun o => !(o.stageCanonical == EXCLUDED_STAGE_CANON))) =
        stageStatsOf s e l ∧
      (stageStatsOf s e l).lookup EXCLUDED_STAGE_CANON = none := by
  intro s e l
  refine ⟨?_, ?_, stageStats_lookup_excluded s e l⟩
  · unfold metricsOf
    rw [totalRDV_filter_excl, oppFiltered_filter_excl]
  · unfold stageStatsOf
    rw [oppFiltered_filter_excl]

/-! ### C5: pagination -/

/-- C5: (1) for a sequence of status-200 pages, all but the last advertising a
next page and the last omitting `nextPageUrl`, the fetch returns exactly the
concatenation of the pages' opportunity arrays in page order; (2) on a
transport exception the items collected so far are returned; (3) likewise on
the first non-200 status. Termination is by construction: the fetch is a total
function of the finite response sequence. -/
theorem pagination_returns_concatenation :
    (∀ (ps : List (List RawOpp)) (lastItems : List RawOpp),
      fetch_all_opportunities
          ((ps.map (fun its => PageResp.page 200 its true)) ++ [PageResp.page 200 lastItems false]) =
        ps.flatten ++ lastItems) ∧
    (∀ (ps : List (List RawOpp)) (rest : List PageResp),
      fetch_all_opportunities
          ((ps.map (fun its => PageResp.page 200 its true)) ++ PageResp.exn :: rest) =
        ps.flatten) ∧
    (∀ (ps : List (List RawOpp)) (st : ℕ) (its : List RawOpp) (b : Bool) (rest : List PageResp),
      st ≠ 200 →
      fetch_all_opportunities
          ((ps.map (fun its => PageResp.page 200 its true)) ++ PageResp.page st its b :: rest) =
        ps.flatten) := by
  refine ⟨?_, ?_, ?_⟩
  · intro ps lastItems
    induction ps with
    | nil => simp [fetch_all_opportunities]
    | cons its ps ih => simp [fetch_all_opportunities, ih]
  · intro ps rest
    induction ps with
    | nil => simp [fetch_all_opportunities]
    | cons its ps ih => simp [fetch_all_opportunities, ih]
  · intro ps st its b rest h
    induction ps with
    | nil => simp [fetch_all_opportunities, h]
    | cons its' ps ih => simp [fetch_all_opportunities, ih]

def rawOppA : RawOpp := ⟨"stA", some 1, some 1⟩
def rawOppB : RawOpp := ⟨"stB", some 2, some 2⟩

/-- C5 witness: a concrete good page followed by a 404 page returns exactly
the first page's items. -/
theorem pagination_returns_concatenation_witness :
    fetch_all_opportunities
        [PageResp.page 200 [rawOppA] true, PageResp.page 404 [rawOppB] true] = [rawOppA] :=
  pagination_returns_concatenation.2.2 [[rawOppA]] 404 [rawOppB] true [] (by decide)

/-! ### C6: the performance join -/

/-- The CRM-side record of the join scenario. -/
def parisCreated : CreatedCenter :=
  { centerName := "Paris Centre", city := "Paris"
    metrics := some { concretise := 2, totalRDVPlanifies := 8, confirmationRateNum := 75 } }

/-- The ads-side record of the join scenario: same center, but lower-cased
with leading/trailing whitespace, and distinctive metric values. -/
def parisMeta : MetaCenter :=
  { centerName := "  paris centre ", city := "Paris"
    metrics := { leads := 7, spend := 42, cpm := 3 } }

/-- C6: the join matches by center display name after trimming and
lower-casing both sides — the CRM record "Paris Centre" and the ads record
"  paris centre " produce exactly one combined record carrying the ads
values; a CRM record with no ads match still appears, with the ads fields at
their zero defaults; and in general the output has exactly one record per
CRM-side record. -/
theorem join_matches_normalized_names :
    ((fetch_combined_performance_data [parisCreated] [parisMeta]).map
        (fun c => (c.centerName, c.spend, c.meta_leads, c.cpm))) =
      [("Paris Centre", (42:ℚ), (7:ℤ), (3:ℚ))] ∧
    ((fetch_combined_performance_data [parisCreated] []).map
        (fun c => (c.spend, c.meta_leads, c.cpm, c.has_meta_error))) =
      [((0:ℚ), (0:ℤ), (0:ℚ), false)] ∧
    (∀ (created : List CreatedCenter) (meta : List MetaCenter),
      (fetch_combined_performance_data created meta).length = created.length) := by
  refine ⟨by decide, by decide, ?_⟩
  intro created meta
  simp [fetch_combined_performance_data]

/-! ### C7: fleet-summary weighting -/

/-- A valid (error-free) combined record with the given name, spend, cpm, ctr,
cpr and funnel rates; all other fields zero. -/
def validCenter (name : String) (spend cpm ctr cpr conf cancel noshow : ℚ) : Combined :=
  { centerName := name, city := "X", meta_leads := 0, spend := spend, cpm := cpm, ctr := ctr,
    cpr := cpr, impressions := 0, inline_link_clicks := 0, video_30_sec_watched := 0,
    hook_rate := 0, meta_conversion_rate := 0, total_created := 0, concretise := 0,
    confirmation_rate := conf, conversion_rate := 0, cancellation_rate := cancel,
    no_show_rate := noshow, cpa := 0, cpl := 0, lead_to_sale_rate := 0,
    lead_to_appointment_rate := 0, has_meta_error := false, has_created_error := false,
    meta_error := "", created_error := "" }

/-- Center A: spend 100, cpm 5, ctr 2, cpr 10, confirmation 10, cancellation
30, no-show 40. -/
def centerA : Combined := validCenter "a" 100 5 2 10 10 30 40

/-- Center B: spend 300, cpm 9, ctr 4, cpr 20, confirmation 20, cancellation
50, no-show 60. -/
def centerB : Combined := validCenter "b" 300 9 4 20 20 50 60

/-- Center Z: zero spend with an extreme ctr, confirmation 60. -/
def centerZ : Combined := validCenter "z" 0 100 100 100 60 0 0

/-- C7: the fleet summary weights cpm/ctr/cpr by spend (for spends 100/300 and
ctrs 2/4, avg_ctr = (100·2+300·4)/400 = 3.5, not the plain mean 3; cpm and cpr
likewise) while confirmation/cancellation/no-show rates are plain arithmetic
means (15/40/50, not spend-weighted); a zero-spend center is skipped by the
weighted averages (avg_ctr stays 3.5 with center Z present) but still counts
in the plain means ((10+20+60)/3 = 30). The summary is what the entry point
returns for these error-free records. -/
theorem fleet_summary_weighting :
    (summaryOf [centerA, centerB]).avg_ctr = 7/2 ∧
    (summaryOf [centerA, centerB]).avg_cpm = 8 ∧
    (summaryOf [centerA, centerB]).avg_cpr = 35/2 ∧
    (summaryOf [centerA, centerB]).overall_confirmation_rate = 15 ∧
    (summaryOf [centerA, centerB]).overall_cancellation_rate = 40 ∧
    (summaryOf [centerA, centerB]).overall_no_show_rate = 50 ∧
    (summaryOf [centerA, centerB, centerZ]).avg_ctr = 7/2 ∧
    (summaryOf [centerA, centerB, centerZ]).overall_confirmation_rate = 30 ∧
    get_performance_summary [centerA, centerB] = .ok (summaryOf [centerA, centerB]) := by
  refine ⟨?_, ?_, ?_, ?_, ?_, ?_, ?_, ?_,
    by simp [get_performance_summary, centerA, centerB, validCenter]⟩ <;>
  · simp [summaryOf, centerA, centerB, centerZ, validCenter, weightedAvgOf, meanRateOf]
    norm_num [roundTo, roundHalfEven]

/-! ### C8: appointment-fetch failure handling -/

/-- A center with a single configured calendar. -/
def calCenter : ApptCenter :=
  { centerName := "C", city := "X", locationId := "L", calendarId := some "cal1" }

/-- An appointment the failing response would have carried. -/
def lostAppt : Appt :=
  { startTime := some "2025-01-01T10:00:00Z", appointmentStatus := some "confirmed" }

/-- C8 counterexample: a non-200 calendar response produces an appointment
result with NO `error` field (the optional key the claim requires is never
written) and a silently empty appointment list. -/
theorem appointment_error_field_counterexample :
    (fetch_appointments calCenter (.resp 500 [lostAppt]) .exn).error = none ∧
    (fetch_appointments calCenter (.resp 500 [lostAppt]) .exn).appointmentsByDay = [] ∧
    (fetch_appointments calCenter (.resp 500 [lostAppt]) .exn).totalAppointments = 0 := by
  refine ⟨rfl, rfl, rfl⟩

/-- C8 as amended: failures in the appointment-fetch path are swallowed, not
reported. Transport exceptions and non-200 statuses are caught and yield an
empty appointment list for that calendar, and the per-center appointment
result never carries an `error` field, contrary to the
`getAppointmentSummary -> AppointmentSummary|{error}` interface promise. -/
theorem appointment_failures_silently_empty :
    (∀ (center : ApptCenter) (r1 r2 : CalResp),
      (fetch_appointments center r1 r2).error = none) ∧
    (∀ (st : ℕ) (appts : List Appt), st ≠ 200 →
      fetch_appointments_from_calendar (.resp st appts) = []) ∧
    fetch_appointments_from_calendar .exn = [] := by
  refine ⟨fun _ _ _ => rfl, ?_, rfl⟩
  intro st appts h
  simp [fetch_appointments_from_calendar, h]

/-- C8 witness: the amended theorem at a concrete 404 response. -/
theorem appointment_failures_silently_empty_witness :
    fetch_appointments_from_calendar (.resp 404 [lostAppt]) = [] :=
  appointment_failures_silently_empty.2.1 404 [lostAppt] (by decide)

/-! ### C9: partial-failure isolation -/

lemma get_center_stats_base_fail (ce : Center × CrmEnv) (df : DateField) (s e : Int)
    (h : pipelineFails ce) :
    ∃ msg, get_center_stats_base ce.1 ce.2 df s e =
      ⟨ce.1.centerName, ce.1.city, .error msg⟩ := by
  unfold get_center_stats_base
  by_cases hs : ce.2.pipelineStatus ≠ 200
  · exact ⟨_, by rw [if_pos hs]⟩
  · rcases h with h | h
    · exact absurd h hs
    · rw [if_neg hs, h]
      exact ⟨"Pipeline not found", rfl⟩

lemma get_center_stats_base_ok (ce : Center × CrmEnv) (df : DateField) (s e : Int)
    (h : ¬ pipelineFails ce) :
    ∃ out, get_center_stats_base ce.1 ce.2 df s e =
      ⟨ce.1.centerName, ce.1.city, .ok out⟩ := by
  unfold pipelineFails at h
  push_neg at h
  obtain ⟨h200, hfind⟩ := h
  unfold get_center_stats_base
  rw [if_neg (by simpa using h200)]
  cases hf : ce.2.pipelines.find? (fun p => p.name == ce.1.pipelineName) with
  | none => exact absurd hf hfind
  | some tp => exact ⟨_, rfl⟩

/-- C9: in a batch of centers in which exactly one center's pipeline lookup
fails (non-200 pipeline listing or pipeline name not found) and every other
center's lookup succeeds, the batch call returns one result per input center
in input order: the failing index carries an `error` string together with the
center's name and city, and every other index carries the full metrics
payload. -/
theorem partial_failure_isolation :
    ∀ (centers : List (Center × CrmEnv)) (df : DateField) (s e : Int) (i : ℕ)
      (ce : Center × CrmEnv),
      centers[i]? = some ce →
      pipelineFails ce →
      (∀ (j : ℕ) (ce' : Center × CrmEnv), j ≠ i → centers[j]? = some ce' →
        ¬ pipelineFails ce') →
      (fetch_centers_data centers df s e).length = centers.length ∧
      (∃ msg, (fetch_centers_data centers df s e)[i]? =
        some ⟨ce.1.centerName, ce.1.city, .error msg⟩) ∧
      (∀ (j : ℕ) (ce' : Center × CrmEnv), j ≠ i → centers[j]? = some ce' →
        ∃ out, (fetch_centers_data centers df s e)[j]? =
          some ⟨ce'.1.centerName, ce'.1.city, .ok out⟩) := by
  intro centers df s e i ce hi hfail hok
  refine ⟨List.length_map _ _, ?_, ?_⟩
  · obtain ⟨msg, hmsg⟩ := get_center_stats_base_fail ce df s e hfail
    refine ⟨msg, ?_⟩
    rw [fetch_centers_data, List.getElem?_map, hi]
    simp [hmsg]
  · intro j ce' hj hce'
    obtain ⟨out, hout⟩ := get_center_stats_base_ok ce' df s e (hok j ce' hj hce')
    refine ⟨out, ?_⟩
    rw [fetch_centers_data, List.getElem?_map, hce']
    simp [hout]

/-- A center whose pipeline listing returns 500. -/
def badCenter : Center × CrmEnv := (⟨"Bad", "BadCity", "P"⟩, ⟨500, [], []⟩)

/-- A center whose pipeline listing succeeds and contains its pipeline. -/
def okCenter : Center × CrmEnv := (⟨"Good", "GoodCity", "P"⟩, ⟨200, [⟨"pid", "P", []⟩], []⟩)

/-- C9 witness: a concrete two-center batch whose first center fails. -/
theorem partial_failure_isolation_witness :
    (fetch_centers_data [badCenter, okCenter] .updatedAt 0 10).length = 2 ∧
    (∃ msg, (fetch_centers_data [badCenter, okCenter] .updatedAt 0 10)[0]? =
      some ⟨"Bad", "BadCity", .error msg⟩) ∧
    (∀ (j : ℕ) (ce' : Center × CrmEnv), j ≠ 0 → [badCenter, okCenter][j]? = some ce' →
      ∃ out, (fetch_centers_data [badCenter, okCenter] .updatedAt 0 10)[j]? =
        some ⟨ce'.1.centerName, ce'.1.city, .ok out⟩) :=
  partial_failure_isolation [badCenter, okCenter] .updatedAt 0 10 0 badCenter rfl
    (by decide)
    (by
      intro j ce' hj hce
      rcases j with _ | _ | j
      · exact absurd rfl hj
      · have h : ce' = okCenter := by simpa using hce.symm
        subst h
        decide
      · simp at hce)

/-! ### C10: empty input versus no-valid-data -/

/-- C10: on an empty list of combined records the fleet summary returns the
empty record (no `error` field); the collective "No valid data available"
error is produced exactly when the input is non-empty and every record has at
least one of the two error flags set. -/
theorem summary_empty_input_vs_no_valid :
    get_performance_summary [] = .empty ∧
    (∀ l : List Combined,
      get_performance_summary l = .errorNoValid ↔
        (l ≠ [] ∧ ∀ c ∈ l, c.has_meta_error = true ∨ c.has_created_error = true)) := by
  refine ⟨rfl, ?_⟩
  intro l
  constructor
  · intro h
    unfold get_performance_summary at h
    by_cases h1 : l.isEmpty
    · rw [if_pos h1] at h
      exact SummaryResult.noConfusion h
    · rw [if_neg h1] at h
      by_cases h2 : (l.filter fun c => !c.has_meta_error && !c.has_created_error).isEmpty
      · refine ⟨fun hnil => h1 (by simp [hnil]), ?_⟩
        intro c hc
        have hall := List.filter_eq_nil_iff.mp (List.isEmpty_iff.mp h2) c hc
        cases hm : c.has_meta_error with
        | true => exact Or.inl rfl
        | false =>
            cases hcr : c.has_created_error with
            | true => exact Or.inr rfl
            | false => exact absurd (by simp [hm, hcr]) hall
      · rw [if_neg h2] at h
        exact SummaryResult.noConfusion h
  · rintro ⟨hne, hall⟩
    unfold get_performance_summary
    rw [if_neg (fun hempty => hne (List.isEmpty_iff.mp hempty)),
      if_pos (List.isEmpty_iff.mpr (List.filter_eq_nil_iff.mpr ?_))]
    intro c hc
    rcases hall c hc with hm | hm <;> simp [hm]

/-- A combined record with its meta-error flag set. -/
def erroredRecord : Combined := validCenter "err" 0 0 0 0 0 0 0

/-- C10 witness: the characterization applied to a concrete one-record list
whose single record carries an error flag. -/
theorem summary_empty_input_vs_no_valid_witness :
    get_performance_summary
      [{ erroredRecord with has_meta_error := true }] = .errorNoValid :=
  (summary_empty_input_vs_no_valid.2 _).mpr
    ⟨by simp, by intro c hc; simp at hc; subst hc; left; rfl⟩

end AgencyDash
